import Mathlib

/-!
Verification development for the SDL2_base repository
(src/include/SDL2_base.hpp, src/test/test.cpp).

The header defines a class `Base` holding, in declaration order, an `Sdl`
subsystem guard, a `Window`, a `Renderer` and `std::vector<Texture> textures`.
We shallow-embed the operations the specification talks about.  Outcomes of
the underlying SDL library calls (file decoding, texture upload, window
creation, render-call return codes) depend on the external environment, so
each embedded operation takes those outcomes as explicit parameters; the
embedding then records the resulting state and, where relevant, the trace of
library calls performed.  Thrown `std::runtime_error` values are embedded as
`Except` errors carrying the message string from the source.
-/

namespace SDL2Base

/-! ## Definitions: texture loading as implemented in src -/

/-- Outcome of the two fallible library calls inside `Base::create_texture`
(src/include/SDL2_base.hpp lines 256 to 285): `SDL_LoadBMP` may return null
(`decodeFail`), otherwise `SDL_CreateTextureFromSurface` may return null
(`uploadFail`), otherwise both succeed (`ok`). -/
inductive LoadOutcome where
  | decodeFail : LoadOutcome
  | uploadFail : LoadOutcome
  | ok : LoadOutcome
deriving DecidableEq, Repr

/-- A texture handle as produced by `Base::create_texture`.  The `id` field
models shared-pointer identity (each `SDL_CreateTextureFromSurface` success
yields a fresh object); the `path` field is ghost data recording which bmp
path the texture was created from, so that per-key properties can be
stated. -/
structure TextureHandle where
  id : Nat
  path : String
deriving DecidableEq, Repr

/-- The texture-related state of one `Base` instance: the member
`std::vector<Texture> textures` (src/include/SDL2_base.hpp line 84) plus a
counter supplying fresh identities for newly constructed textures.  `nextId`
also counts construction side effects: it increases by exactly one per
successful texture construction. -/
structure BaseState where
  textures : List TextureHandle
  nextId : Nat
deriving DecidableEq, Repr

/-- The state of a freshly constructed `Base`: the vector member starts
empty. -/
def initState : BaseState := { textures := [], nextId := 0 }

/-- Embedding of `Base::create_texture` (src/include/SDL2_base.hpp lines
256 to 285).  The source loads the bmp into a `Surface` (throwing
`runtime_error "Failed to load bmp."` on null), creates a texture from it
(throwing `runtime_error "Failed to create texture."` on null), pushes the
shared handle onto `textures` and returns it.  A throw leaves the object
state untouched, because `push_back` is only reached after both calls
succeed; the embedding therefore returns the unchanged state alongside the
error. -/
def create_texture (s : BaseState) (path : String) (out : LoadOutcome) :
    Except String TextureHandle × BaseState :=
  match out with
  | .decodeFail => (.error "Failed to load bmp.", s)
  | .uploadFail => (.error "Failed to create texture.", s)
  | .ok =>
      let tex : TextureHandle := { id := s.nextId, path := path }
      (.ok tex, { textures := s.textures ++ [tex], nextId := s.nextId + 1 })

/-- Observation on the `Base` state: some texture created from `p` is
currently held in the `textures` vector.  This is the meaning the
specification gives to `has(key)` when read against the state kept by the
header in src (the header itself stores no keys; the ghost `path` field
records them). -/
def hasKey (s : BaseState) (p : String) : Bool :=
  s.textures.any (fun t => t.path == p)

/-- Number of handles held for key `p`. -/
def countKey (s : BaseState) (p : String) : Nat :=
  s.textures.countP (fun t => t.path == p)

/-- Run a sequence of `create_texture` calls, each given by the requested
path and the environment outcome for that call, threading the state through
and discarding the returned handles (as the test file does with
`load_texture`). -/
def runLoads (s : BaseState) (loads : List (String × LoadOutcome)) : BaseState :=
  match loads with
  | [] => s
  | (p, out) :: rest => runLoads (create_texture s p out).2 rest

/-- Number of successful loads of key `p` in a load sequence. -/
def countSuccess (loads : List (String × LoadOutcome)) (p : String) : Nat :=
  loads.countP (fun l => l.1 == p && l.2 == LoadOutcome.ok)

/-! ## Definitions: spec-modelled texture cache

The test file src/test/test.cpp calls `load_texture`, `is_texture_loaded`,
`get_texture` and `get_textures_map` on `Base`, but none of these members
exist in src/include/SDL2_base.hpp; the revision implementing the
path-keyed cache of specification sections 3 and 4.1 is not part of src.
The definitions below model that cache from the specification text so that
the claims about `fetchAll` and `has` can be settled. -/

/-- Modelled from the spec: the error of a failed texture load
("Fails with a ResourceLoadError if the underlying decode or upload step
fails"). -/
inductive SpecError where
  | resourceLoadError : SpecError
deriving DecidableEq, Repr

/-- Modelled from the spec: the state of the TextureCache, a "mapping from
path (string key, exact byte match, order irrelevant) to TextureHandle",
created empty, entries added only by the load-or-fetch operation.  Handles
are modelled by their identity (`Nat`); `loads` is the ordered log of
construction side effects, so that "loaded exactly once" is observable. -/
structure CacheState where
  entries : List (String × Nat)
  nextId : Nat
  loads : List String
deriving DecidableEq, Repr

/-- Modelled from the spec: the cache is "created empty alongside the owning
rendering context". -/
def emptyCache : CacheState := { entries := [], nextId := 0, loads := [] }

/-- Lookup of a key in the entry list (first match), the mapping lookup used
by the cache model. -/
def findEntry (l : List (String × Nat)) (key : String) : Option Nat :=
  match l with
  | [] => none
  | (k, v) :: rest => if k == key then some v else findEntry rest key

/-- Modelled from the spec: `fetch(key)` — "if key is present, returns the
existing handle (no new resource created).  If absent, synchronously
constructs a new texture from the source named by key, inserts it under key,
and returns it.  Fails with a ResourceLoadError if the underlying decode or
upload step fails; on failure, no entry is inserted and the cache is left
unchanged."  The environment `env` gives the outcome of the underlying
decode and upload steps for each key. -/
def fetch (s : CacheState) (key : String) (env : String → LoadOutcome) :
    Except SpecError Nat × CacheState :=
  match findEntry s.entries key with
  | some h => (.ok h, s)
  | none =>
      match env key with
      | .ok =>
          (.ok s.nextId,
            { entries := s.entries ++ [(key, s.nextId)],
              nextId := s.nextId + 1,
              loads := s.loads ++ [key] })
      | _ => (.error .resourceLoadError, s)

/-- Modelled from the spec: `has(key) -> bool`, "true iff key currently maps
to a handle.  No side effects."  It is a pure observation of the state and
returns no new state. -/
def hasCache (s : CacheState) (key : String) : Bool :=
  (findEntry s.entries key).isSome

/-- Adds one fetched result to the result mapping of `fetchAll`, keeping at
most one entry per key (a key already present in the mapping is not added
again). -/
def addResult (m : List (String × Nat)) (key : String) (h : Nat) :
    List (String × Nat) :=
  if (findEntry m key).isSome then m else m ++ [(key, h)]

/-- Modelled from the spec: `fetchAll(keys)` — "convenience operation
equivalent to calling fetch for each key in order and collecting results;
fails on the first error encountered, leaving the cache exactly as if that
sequence of successful fetch calls up to the point of failure had
completed". -/
def fetchAll (s : CacheState) (keys : List String)
    (env : String → LoadOutcome) :
    Except SpecError (List (String × Nat)) × CacheState :=
  match keys with
  | [] => (.ok [], s)
  | k :: rest =>
      match fetch s k env with
      | (.ok h, s1) =>
          match fetchAll s1 rest env with
          | (.ok m, s2) => (.ok (addResult m k h), s2)
          | (.error e, s2) => (.error e, s2)
      | (.error e, s1) => (.error e, s1)

/-- Iterated `fetch`: calls fetch for each key in order, threading the state
and stopping at the first error (a failing fetch leaves the state unchanged,
so the resulting state is exactly the one after the successful prefix). -/
def runFetches (s : CacheState) (keys : List String)
    (env : String → LoadOutcome) : CacheState :=
  match keys with
  | [] => s
  | k :: rest =>
      match fetch s k env with
      | (.ok _, s1) => runFetches s1 rest env
      | (.error _, s1) => s1

/-- An environment in which every load succeeds. -/
def allOkEnv : String → LoadOutcome := fun _ => LoadOutcome.ok

/-! ## Definitions: comparable value structs

`Dimensions` and `Coordinates` hold C `int` fields, embedded as `Int`.
`FDimensions` and `FCoordinates` hold C `float` fields; the only operations
the source performs on them are `==` and `<`, so a float is embedded as
either a finite value (represented by its real value as a rational; plus and
minus zero compare equal under IEEE `==` and `<` and are represented
identically) or NaN, with the IEEE comparison semantics that every `==` and
`<` comparison involving NaN is false. -/

/-- Model of a C `float` under the comparisons used by the source: a finite
value or NaN. -/
inductive FVal where
  | fin : ℚ → FVal
  | nan : FVal
deriving DecidableEq, Repr

/-- IEEE `==` on the float model: finite values compare by value, any
comparison with NaN is false. -/
def feq (a b : FVal) : Bool :=
  match a, b with
  | .fin x, .fin y => x == y
  | _, _ => false

/-- IEEE `<` on the float model: finite values compare by value, any
comparison with NaN is false. -/
def flt (a b : FVal) : Bool :=
  match a, b with
  | .fin x, .fin y => decide (x < y)
  | _, _ => false

/-- `Base::Dimensions` (src/include/SDL2_base.hpp lines 135 to 145). -/
structure Dimensions where
  w : Int
  h : Int
deriving DecidableEq, Repr

/-- `Dimensions::operator<` (lines 137 to 141): if the widths compare equal,
compare heights, else compare widths. -/
def Dimensions.ltOp (a b : Dimensions) : Bool :=
  if a.w == b.w then decide (a.h < b.h) else decide (a.w < b.w)

/-- `Dimensions::operator==` (lines 142 to 144). -/
def Dimensions.eqOp (a b : Dimensions) : Bool :=
  a.w == b.w && a.h == b.h

/-- `Base::FDimensions` (src/include/SDL2_base.hpp lines 150 to 160). -/
structure FDimensions where
  w : FVal
  h : FVal
deriving DecidableEq, Repr

/-- `FDimensions::operator<` (lines 152 to 156), with IEEE float
comparison. -/
def FDimensions.ltOp (a b : FDimensions) : Bool :=
  if feq a.w b.w then flt a.h b.h else flt a.w b.w

/-- `FDimensions::operator==` (lines 157 to 159). -/
def FDimensions.eqOp (a b : FDimensions) : Bool :=
  feq a.w b.w && feq a.h b.h

/-- `Base::Coordinates` (src/include/SDL2_base.hpp lines 165 to 175). -/
structure Coordinates where
  x : Int
  y : Int
deriving DecidableEq, Repr

/-- `Coordinates::operator<` (lines 167 to 171). -/
def Coordinates.ltOp (a b : Coordinates) : Bool :=
  if a.x == b.x then decide (a.y < b.y) else decide (a.x < b.x)

/-- `Coordinates::operator==` (lines 172 to 174). -/
def Coordinates.eqOp (a b : Coordinates) : Bool :=
  a.x == b.x && a.y == b.y

/-- `Base::FCoordinates` (src/include/SDL2_base.hpp lines 180 to 190). -/
structure FCoordinates where
  x : FVal
  y : FVal
deriving DecidableEq, Repr

/-- `FCoordinates::operator<` (lines 182 to 186), with IEEE float
comparison. -/
def FCoordinates.ltOp (a b : FCoordinates) : Bool :=
  if feq a.x b.x then flt a.y b.y else flt a.x b.x

/-- `FCoordinates::operator==` (lines 187 to 189). -/
def FCoordinates.eqOp (a b : FCoordinates) : Bool :=
  feq a.x b.x && feq a.y b.y

/-! ## Definitions: drawing operations -/

/-- An `SDL_Rect`: four C `int` fields. -/
structure Rect where
  x : Int
  y : Int
  w : Int
  h : Int
deriving DecidableEq, Repr

/-- An `SDL_FRect`: four C `float` fields (opaque payload for the drawing
operations, which never compare them). -/
structure FRect where
  x : FVal
  y : FVal
  w : FVal
  h : FVal
deriving DecidableEq, Repr

/-- An `SDL_Color`: four `Uint8` channels. -/
structure Color where
  r : Nat
  g : Nat
  b : Nat
  a : Nat
deriving DecidableEq, Repr

/-- An `SDL_RendererFlip` value. -/
inductive Flip where
  | noFlip : Flip
  | horizontal : Flip
  | vertical : Flip
deriving DecidableEq, Repr

/-- A command recorded in the pending frame buffer of the render target. -/
inductive DrawCmd where
  | clearCmd : Color → DrawCmd
  | copyExCmd : Nat → Option Rect → Option Rect → FVal → Flip → DrawCmd
  | copyExFCmd : Nat → Option Rect → FRect → FVal → Flip → DrawCmd
  | fillRectCmd : Rect → Color → DrawCmd
deriving DecidableEq

/-- The underlying SDL renderer calls the drawing wrappers can perform. -/
inductive RenCall where
  | setRenderDrawColorCall : RenCall
  | renderClearCall : RenCall
  | renderPresentCall : RenCall
  | renderCopyExCall : RenCall
  | renderCopyExFCall : RenCall
  | renderFillRectCall : RenCall
deriving DecidableEq, Repr

/-- Renderer state visible to the embedded drawing operations: current draw
color, the pending frame buffer (commands since the last successful clear),
and the most recently presented frame. -/
structure RenderState where
  color : Color
  frame : List DrawCmd
  presented : List DrawCmd
deriving DecidableEq

/-- Result of one embedded drawing operation: the value returned to the
caller (`ok`) or the thrown message (`error`), the renderer state afterwards,
and the ordered list of underlying SDL calls performed during the
operation. -/
structure DrawResult where
  res : Except String Unit
  state : RenderState
  calls : List RenCall

/-- Embedding of `Base::set_draw_color` (src/include/SDL2_base.hpp lines 234
to 237): a single `SDL_SetRenderDrawColor` call whose return code `rc` is
checked; nonzero throws `"Failed to set draw color."`. -/
def set_draw_color (s : RenderState) (col : Color) (rc : Int) : DrawResult :=
  if rc = 0 then
    { res := .ok (), state := { s with color := col },
      calls := [RenCall.setRenderDrawColorCall] }
  else
    { res := .error "Failed to set draw color.", state := s,
      calls := [RenCall.setRenderDrawColorCall] }

/-- Embedding of `Base::clear` (lines 241 to 244): a single
`SDL_RenderClear` call; nonzero return throws `"Failed to clear renderer."`,
success resets the pending frame to a clear with the current draw color. -/
def clear (s : RenderState) (rc : Int) : DrawResult :=
  if rc = 0 then
    { res := .ok (), state := { s with frame := [DrawCmd.clearCmd s.color] },
      calls := [RenCall.renderClearCall] }
  else
    { res := .error "Failed to clear renderer.", state := s,
      calls := [RenCall.renderClearCall] }

/-- Embedding of `Base::present` (lines 248 to 250): a single
`SDL_RenderPresent` call.  In SDL2 this call returns `void`; the source
performs it and returns, with no failure path and no throw.  Success
publishes the pending frame. -/
def present (s : RenderState) : DrawResult :=
  { res := .ok (), state := { s with presented := s.frame },
    calls := [RenCall.renderPresentCall] }

/-- Embedding of `Base::draw_texture_internal` (lines 101 to 127): if a
float destination rect was supplied, a single `SDL_RenderCopyExF` call,
otherwise a single `SDL_RenderCopyEx` call; in both branches a nonzero
return code throws `"Failed to draw texture."`, success records the copy in
the pending frame. -/
def draw_texture_internal (s : RenderState) (tex : Nat)
    (srcrect dstrect : Option Rect) (dstrectf : Option FRect)
    (angle : FVal) (flip : Flip) (rc : Int) : DrawResult :=
  match dstrectf with
  | some dstf =>
      if rc = 0 then
        { res := .ok (),
          state := { s with frame :=
            s.frame ++ [DrawCmd.copyExFCmd tex srcrect dstf angle flip] },
          calls := [RenCall.renderCopyExFCall] }
      else
        { res := .error "Failed to draw texture.", state := s,
          calls := [RenCall.renderCopyExFCall] }
  | none =>
      if rc = 0 then
        { res := .ok (),
          state := { s with frame :=
            s.frame ++ [DrawCmd.copyExCmd tex srcrect dstrect angle flip] },
          calls := [RenCall.renderCopyExCall] }
      else
        { res := .error "Failed to draw texture.", state := s,
          calls := [RenCall.renderCopyExCall] }

/-- Embedding of the first `Base::draw_texture` overload (lines 299 to 307):
forwards to `draw_texture_internal` with no float destination rect. -/
def draw_texture (s : RenderState) (tex : Nat)
    (srcrect dstrect : Option Rect) (angle : FVal) (flip : Flip)
    (rc : Int) : DrawResult :=
  draw_texture_internal s tex srcrect dstrect none angle flip rc

/-- Embedding of the second `Base::draw_texture` overload (lines 319 to
327): forwards to `draw_texture_internal` with the given source rect, no
integer destination rect, and the given float destination rect. -/
def draw_texture_frect (s : RenderState) (tex : Nat)
    (srcrect : Rect) (dstrect : FRect) (angle : FVal) (flip : Flip)
    (rc : Int) : DrawResult :=
  draw_texture_internal s tex (some srcrect) none (some dstrect) angle flip rc

/-- Modelled from the spec: the drawing operation "fill a rectangular region
with a color" of section 4.3 is absent from src/include/SDL2_base.hpp.  It
is modelled as a single forwarding call (`SDL_RenderFillRect`, filling with
the current draw color) that fails with a RenderOperationError on a nonzero
return code, in the style of the wrappers present in the source. -/
def fill_rect (s : RenderState) (rect : Rect) (rc : Int) : DrawResult :=
  if rc = 0 then
    { res := .ok (),
      state := { s with frame := s.frame ++ [DrawCmd.fillRectCmd rect s.color] },
      calls := [RenCall.renderFillRectCall] }
  else
    { res := .error "RenderOperationError: failed to fill rect.", state := s,
      calls := [RenCall.renderFillRectCall] }

/-- A sample renderer state, used to instantiate theorems at concrete
inputs. -/
def sampleState : RenderState :=
  { color := { r := 0, g := 0, b := 0, a := 0 }, frame := [], presented := [] }

/-- A sample rectangle, used to instantiate theorems at concrete inputs. -/
def sampleRect : Rect := { x := 0, y := 0, w := 1, h := 1 }

/-! ## Definitions: Base constructor (session lifecycle) -/

/-- SDL library calls recorded by the embedding of the `Base` constructor
and of the destructor calls C++ performs when a member initializer
throws. -/
inductive SdlCall where
  | sdlInitCall : SdlCall
  | createWindowCall : SdlCall
  | createRendererCall : SdlCall
  | destroyWindowCall : SdlCall
  | destroyRendererCall : SdlCall
  | sdlQuitCall : SdlCall
deriving DecidableEq, Repr

/-- Environment for one run of the `Base` constructor: whether `SDL_Init`
returns zero, and whether `SDL_CreateWindow` and `SDL_CreateRenderer` return
non-null handles. -/
structure CtorEnv where
  initOk : Bool
  winOk : Bool
  renOk : Bool
deriving DecidableEq, Repr

/-- Embedding of the `Base` constructor (src/include/SDL2_base.hpp lines 194
to 229).  C++ initializes the members in declaration order `sdl`, `win`,
`ren` (lines 81 to 83).  `Sdl::Sdl` calls `SDL_Init` and throws
`"Failed to init SDL2."` on nonzero (lines 61 to 65); the `win` initializer
calls `SDL_CreateWindow` and throws `"Failed to create window."` on null
(lines 203 to 216); the `ren` initializer calls `SDL_CreateRenderer` on
`win.get()` and throws `"Failed to create renderer."` on null (lines 217 to
228).  When a member initializer throws, C++ destroys the already
constructed members in reverse construction order: after a renderer failure
the `win` deleter runs (`SDL_DestroyWindow`, lines 212 to 215) and then
`Sdl::~Sdl` runs (`SDL_Quit`, lines 66 to 69); after a window failure only
`~Sdl` runs.  The embedding returns the thrown message (or success) together
with the exact ordered trace of SDL calls performed. -/
def baseCtor (env : CtorEnv) : Except String Unit × List SdlCall :=
  if env.initOk = false then
    (.error "Failed to init SDL2.", [SdlCall.sdlInitCall])
  else if env.winOk = false then
    (.error "Failed to create window.",
      [SdlCall.sdlInitCall, SdlCall.createWindowCall, SdlCall.sdlQuitCall])
  else if env.renOk = false then
    (.error "Failed to create renderer.",
      [SdlCall.sdlInitCall, SdlCall.createWindowCall,
        SdlCall.createRendererCall, SdlCall.destroyWindowCall,
        SdlCall.sdlQuitCall])
  else
    (.ok (),
      [SdlCall.sdlInitCall, SdlCall.createWindowCall,
        SdlCall.createRendererCall])

/-! ## Theorems -/

theorem create_texture_ok (s : BaseState) (p : String) :
    create_texture s p .ok =
      (.ok { id := s.nextId, path := p },
        { textures := s.textures ++ [{ id := s.nextId, path := p }],
          nextId := s.nextId + 1 }) := rfl

/-- After running a load sequence, the number of handles held for key `p`
grew by exactly the number of successful loads of `p` in the sequence. -/
theorem countKey_runLoads (loads : List (String × LoadOutcome))
    (s : BaseState) (p : String) :
    countKey (runLoads s loads) p = countKey s p + countSuccess loads p := by
  induction loads generalizing s with
  | nil => simp [runLoads, countSuccess]
  | cons l rest ih =>
      obtain ⟨q, out⟩ := l
      cases out with
      | decodeFail =>
          simp [runLoads, create_texture, ih, countSuccess, List.countP_cons]
      | uploadFail =>
          simp [runLoads, create_texture, ih, countSuccess, List.countP_cons]
      | ok =>
          show countKey (runLoads (create_texture s q .ok).2 rest) p = _
          rw [ih]
          simp only [create_texture, countKey, countSuccess, List.countP_append,
            List.countP_cons]
          by_cases hq : q = p
          · subst hq
            simp
            omega
          · simp [hq]

theorem findEntry_append_ne (l : List (String × Nat)) (k key : String)
    (v : Nat) (hk : key ≠ k) :
    findEntry (l ++ [(k, v)]) key = findEntry l key := by
  induction l with
  | nil => simp [findEntry, Ne.symm hk]
  | cons e rest ih =>
      rcases e with ⟨ek, ev⟩
      by_cases he : ek == key <;> simp [findEntry, he, ih]

theorem fetchAll_state_eq_runFetches (keys : List String) (s : CacheState)
    (env : String → LoadOutcome) :
    (fetchAll s keys env).2 = runFetches s keys env := by
  induction keys generalizing s with
  | nil => rfl
  | cons k rest ih =>
      simp only [fetchAll, runFetches]
      rcases hf : fetch s k env with ⟨r, s1⟩
      cases r with
      | ok h =>
          rcases hr : fetchAll s1 rest env with ⟨m, s2⟩
          have hs2 : s2 = runFetches s1 rest env := by
            rw [← ih s1, hr]
          cases m with
          | ok m => simpa [hr] using hs2
          | error e => simpa [hr] using hs2
      | error e => rfl

theorem hasCache_fetch_of_mem (s : CacheState) (k key : String)
    (env : String → LoadOutcome) (h : hasCache (fetch s k env).2 key = true) :
    hasCache s key = true ∨ key = k := by
  unfold fetch at h
  rcases hfind : findEntry s.entries k with _ | v
  · rw [hfind] at h
    rcases henv : env k with _ | _ | _ <;> rw [henv] at h
    · exact Or.inl h
    · exact Or.inl h
    · simp only [hasCache] at h ⊢
      by_cases hkk : key = k
      · exact Or.inr hkk
      · rw [findEntry_append_ne s.entries k key s.nextId hkk] at h
        exact Or.inl h
  · rw [hfind] at h
    exact Or.inl h

theorem hasCache_runFetches_not_mem (keys : List String)
    (s : CacheState) (env : String → LoadOutcome) (key : String)
    (hk : key ∉ keys) (hs : hasCache s key = false) :
    hasCache (runFetches s keys env) key = false := by
  induction keys generalizing s with
  | nil => exact hs
  | cons k rest ih =>
      simp only [List.mem_cons, not_or] at hk
      simp only [runFetches]
      rcases hf : fetch s k env with ⟨r, s1⟩
      have hs1 : hasCache s1 key = false := by
        by_contra hcon
        rw [Bool.not_eq_false] at hcon
        have hmem := hasCache_fetch_of_mem s k key env
          (by rw [hf]; exact hcon)
        rcases hmem with h1 | h2
        · rw [hs] at h1; exact Bool.false_ne_true h1
        · exact hk.1 h2
      cases r with
      | ok h => exact ih s1 hk.2 hs1
      | error e => exact hs1

theorem findEntry_append_none (l : List (String × Nat)) (k : String) (v : Nat)
    (h : findEntry l k = none) : findEntry (l ++ [(k, v)]) k = some v := by
  induction l with
  | nil => simp [findEntry]
  | cons e rest ih =>
      rcases e with ⟨ek, ev⟩
      by_cases he : ek == k
      · simp [findEntry, he] at h
      · simp only [findEntry, he, if_neg] at h ⊢
        simp only [List.cons_append, findEntry, he, if_neg, Bool.false_eq_true,
          ite_false]
        exact ih h

/-- Claim C1, counterexample.  The claim states that loading a path that has
already been successfully loaded does not create a second handle for that
key.  On the code in src this is false: starting from a fresh instance, two
successful `create_texture` calls for the key "a.bmp" leave two handles for
that key in the `textures` vector, refuting the at-most-one bound at this
concrete input. -/
theorem c1_counterexample :
    ¬ (countKey (runLoads initState
        [("a.bmp", LoadOutcome.ok), ("a.bmp", LoadOutcome.ok)]) "a.bmp" ≤ 1) := by
  decide

/-- Claim C1, amended.  `Base::create_texture` performs no duplicate check:
every successful load appends a fresh handle, so after any sequence of
texture-loading operations on a fresh instance, the number of handles held
for a key equals the number of successful loads of that key.  In particular
loading an already-loaded path creates an additional handle rather than
reusing the existing one. -/
theorem c1_amended (loads : List (String × LoadOutcome)) (p : String) :
    countKey (runLoads initState loads) p = countSuccess loads p := by
  rw [countKey_runLoads]
  simp [countKey, initState]

/-- Claim C2, counterexample.  The claim states that two consecutive
successful fetches of the same path yield identity-equal handles with
exactly one construction side effect.  On the code in src this is false:
from a fresh instance, two successful loads of "a.bmp" return handles with
distinct identities (0 and 1) and perform two constructions (the
construction counter ends at 2, not 1). -/
theorem c2_counterexample :
    (create_texture initState "a.bmp" .ok).1 =
      .ok { id := 0, path := "a.bmp" } ∧
    (create_texture (create_texture initState "a.bmp" .ok).2 "a.bmp" .ok).1 =
      .ok { id := 1, path := "a.bmp" } ∧
    ({ id := 0, path := "a.bmp" } : TextureHandle) ≠
      { id := 1, path := "a.bmp" } ∧
    ¬ ((create_texture (create_texture initState "a.bmp" .ok).2
        "a.bmp" .ok).2.nextId = 1) := by
  refine ⟨rfl, rfl, by decide, by decide⟩

/-- Claim C2, amended.  `Base::create_texture` never returns an existing
handle: a second successful load of the same path constructs a new resource,
so two consecutive successful loads of one path return handles with distinct
identities, append both to the vector, and perform exactly two construction
side effects. -/
theorem c2_amended (s : BaseState) (p : String) :
    (create_texture s p .ok).1 = .ok { id := s.nextId, path := p } ∧
    (create_texture (create_texture s p .ok).2 p .ok).1 =
      .ok { id := s.nextId + 1, path := p } ∧
    ({ id := s.nextId, path := p } : TextureHandle) ≠
      { id := s.nextId + 1, path := p } ∧
    (create_texture (create_texture s p .ok).2 p .ok).2.nextId = s.nextId + 2 ∧
    (create_texture (create_texture s p .ok).2 p .ok).2.textures =
      s.textures ++ [{ id := s.nextId, path := p },
        { id := s.nextId + 1, path := p }] := by
  refine ⟨rfl, rfl, ?_, rfl, by simp [create_texture]⟩
  intro h
  have h2 := congrArg TextureHandle.id h
  simp at h2

/-- Claim C3, counterexample.  The claim states that after a fetch whose
decode step fails, `has(key)` is false.  On the code in src this is false
when the key was already loaded successfully before: `create_texture`
decodes on every call, so a later failing load of "a.bmp" throws and leaves
the earlier handle in place, and the key is still held afterwards. -/
theorem c3_counterexample :
    (create_texture (create_texture initState "a.bmp" .ok).2
      "a.bmp" .decodeFail).1 = .error "Failed to load bmp." ∧
    ¬ (hasKey (create_texture (create_texture initState "a.bmp" .ok).2
        "a.bmp" .decodeFail).2 "a.bmp" = false) := by
  refine ⟨rfl, by decide⟩

/-- Claim C3, amended.  When the decode step (`SDL_LoadBMP`) or the upload
step (`SDL_CreateTextureFromSurface`) fails, `Base::create_texture` throws a
runtime error (the ResourceLoadError of the specification) before reaching
the insertion, so no entry is inserted and the cache state is exactly
unchanged; consequently `has(key)` keeps the value it had before the failing
call — in particular it is false whenever the key had never been
successfully loaded — and no partially-registered texture is observable. -/
theorem c3_amended (s : BaseState) (p : String) :
    (create_texture s p .decodeFail).1 = .error "Failed to load bmp." ∧
    (create_texture s p .decodeFail).2 = s ∧
    (create_texture s p .uploadFail).1 = .error "Failed to create texture." ∧
    (create_texture s p .uploadFail).2 = s ∧
    hasKey (create_texture s p .decodeFail).2 p = hasKey s p ∧
    hasKey (create_texture s p .uploadFail).2 p = hasKey s p := by
  exact ⟨rfl, rfl, rfl, rfl, rfl, rfl⟩

/-- Claim C4, confirmed against the spec-modelled cache.  `fetchAll` is
equivalent to calling `fetch` for each key in order and collecting the
results: its final cache state equals the state of the iterated fetches; it
fails on the first error encountered, returning that error and leaving the
cache exactly as produced by the successful fetches that preceded the
failure (the failing fetch itself changes nothing); and on the concrete
input ["a.bmp", "a.bmp", "b.bmp"] in an environment where every load
succeeds, it produces a two-entry mapping for "a.bmp" and "b.bmp" while
loading "a.bmp" exactly once (the construction log is exactly
["a.bmp", "b.bmp"]). -/
theorem c4_fetchAll :
    (∀ (s : CacheState) (keys : List String) (env : String → LoadOutcome),
      (fetchAll s keys env).2 = runFetches s keys env) ∧
    (∀ (s : CacheState) (k : String) (rest : List String)
        (env : String → LoadOutcome) (e : SpecError),
      (fetch s k env).1 = .error e →
        fetchAll s (k :: rest) env = (.error e, (fetch s k env).2)) ∧
    (∀ (s : CacheState) (k : String) (env : String → LoadOutcome)
        (e : SpecError),
      (fetch s k env).1 = .error e → (fetch s k env).2 = s) ∧
    (fetchAll emptyCache ["a.bmp", "a.bmp", "b.bmp"] allOkEnv).1 =
      .ok [("b.bmp", 1), ("a.bmp", 0)] ∧
    (fetchAll emptyCache ["a.bmp", "a.bmp", "b.bmp"] allOkEnv).2.loads =
      ["a.bmp", "b.bmp"] := by
  refine ⟨fun s keys env => fetchAll_state_eq_runFetches keys s env,
    ?_, ?_, by rfl, by decide⟩
  · intro s k rest env e he
    simp only [fetchAll]
    rcases hf : fetch s k env with ⟨r, s1⟩
    rw [hf] at he
    simp only at he
    subst he
    rfl
  · intro s k env e he
    unfold fetch at he ⊢
    rcases hfind : findEntry s.entries k with _ | v
    · rcases henv : env k with _ | _ | _
      · rfl
      · rfl
      · simp [hfind, henv] at he
    · rfl

/-- Claim C4, witness: applying the theorem at the concrete single-key
sequence ["missing.bmp"] in an environment where decoding fails shows that
`fetchAll` fails with the ResourceLoadError and leaves the empty cache
unchanged. -/
theorem c4_fetchAll_witness :
    fetchAll emptyCache ["missing.bmp"]
      (fun _ => LoadOutcome.decodeFail) =
      (.error .resourceLoadError,
        (fetch emptyCache "missing.bmp" (fun _ => LoadOutcome.decodeFail)).2) :=
  c4_fetchAll.2.1 emptyCache "missing.bmp" []
    (fun _ => LoadOutcome.decodeFail) .resourceLoadError (by rfl)

/-- Claim C5, confirmed against the spec-modelled cache.  `has(key)` is true
if and only if the key currently maps to a handle; it is a pure observation
with no side effects (it takes the state and returns only a boolean); it is
false on the empty cache and, more generally, false after any sequence of
fetches none of which requested the key; and it is true immediately after a
successful fetch of the key. -/
theorem c5_has :
    (∀ (s : CacheState) (key : String),
      hasCache s key = true ↔ ∃ h, findEntry s.entries key = some h) ∧
    (∀ key : String, hasCache emptyCache key = false) ∧
    (∀ (keys : List String) (env : String → LoadOutcome) (key : String),
      key ∉ keys → hasCache (runFetches emptyCache keys env) key = false) ∧
    (∀ (s : CacheState) (key : String) (env : String → LoadOutcome)
        (h : Nat) (s2 : CacheState),
      fetch s key env = (.ok h, s2) → hasCache s2 key = true) := by
  refine ⟨?_, fun key => rfl, ?_, ?_⟩
  · intro s key
    simp [hasCache, Option.isSome_iff_exists]
  · intro keys env key hk
    exact hasCache_runFetches_not_mem keys emptyCache env key hk rfl
  · intro s key env h s2 hf
    unfold fetch at hf
    rcases hfind : findEntry s.entries key with _ | v
    · rw [hfind] at hf
      rcases henv : env key with _ | _ | _ <;> rw [henv] at hf
      · exact absurd (congrArg Prod.fst hf) (by simp)
      · exact absurd (congrArg Prod.fst hf) (by simp)
      · have hs2 := congrArg Prod.snd hf
        simp only at hs2
        subst hs2
        simp [hasCache, findEntry_append_none s.entries key s.nextId hfind]
    · rw [hfind] at hf
      have hs2 := congrArg Prod.snd hf
      simp only at hs2
      subst hs2
      simp [hasCache, hfind]

/-- Claim C5, witness: applying the theorem at concrete inputs shows that
"b.bmp" is not held after fetching only "a.bmp", and that "a.bmp" is held
immediately after its successful fetch from the empty cache. -/
theorem c5_has_witness :
    hasCache (runFetches emptyCache ["a.bmp"] allOkEnv) "b.bmp" = false ∧
    hasCache (fetch emptyCache "a.bmp" allOkEnv).2 "a.bmp" = true :=
  ⟨c5_has.2.2.1 ["a.bmp"] allOkEnv "b.bmp" (by decide),
    c5_has.2.2.2 emptyCache "a.bmp" allOkEnv 0
      (fetch emptyCache "a.bmp" allOkEnv).2 (by rfl)⟩

/-- Claim C6.  Session construction acquires resources in the strict order
subsystem, then window, then renderer, and fails fast: if `SDL_Init` fails,
the runtime error (the ResourceInitError of the specification) propagates
and neither `SDL_CreateWindow` nor `SDL_CreateRenderer` is called; if window
creation fails, the error propagates and `SDL_CreateRenderer` is not called;
when every step succeeds, the call trace is exactly subsystem, window,
renderer in that order. -/
theorem c6_ctor_fail_fast :
    (∀ env : CtorEnv, env.initOk = false →
      (baseCtor env).1 = .error "Failed to init SDL2." ∧
      SdlCall.createWindowCall ∉ (baseCtor env).2 ∧
      SdlCall.createRendererCall ∉ (baseCtor env).2) ∧
    (∀ env : CtorEnv, env.initOk = true → env.winOk = false →
      (baseCtor env).1 = .error "Failed to create window." ∧
      SdlCall.createRendererCall ∉ (baseCtor env).2) ∧
    (∀ env : CtorEnv, env.initOk = true → env.winOk = true →
      env.renOk = true →
      baseCtor env = (.ok (),
        [SdlCall.sdlInitCall, SdlCall.createWindowCall,
          SdlCall.createRendererCall])) := by
  refine ⟨?_, ?_, ?_⟩
  · rintro ⟨i, w, r⟩ hi
    subst hi
    exact ⟨rfl, by simp [baseCtor], by simp [baseCtor]⟩
  · rintro ⟨i, w, r⟩ hi hw
    subst hi
    subst hw
    exact ⟨rfl, by simp [baseCtor]⟩
  · rintro ⟨i, w, r⟩ hi hw hr
    subst hi
    subst hw
    subst hr
    rfl

/-- Claim C6, witness: the theorem instantiated at the three concrete
environments (subsystem failure, window failure, full success). -/
theorem c6_ctor_fail_fast_witness :
    ((baseCtor { initOk := false, winOk := true, renOk := true }).1 =
        .error "Failed to init SDL2." ∧
      SdlCall.createWindowCall ∉
        (baseCtor { initOk := false, winOk := true, renOk := true }).2 ∧
      SdlCall.createRendererCall ∉
        (baseCtor { initOk := false, winOk := true, renOk := true }).2) ∧
    ((baseCtor { initOk := true, winOk := false, renOk := true }).1 =
        .error "Failed to create window." ∧
      SdlCall.createRendererCall ∉
        (baseCtor { initOk := true, winOk := false, renOk := true }).2) ∧
    baseCtor { initOk := true, winOk := true, renOk := true } =
      (.ok (), [SdlCall.sdlInitCall, SdlCall.createWindowCall,
        SdlCall.createRendererCall]) :=
  ⟨c6_ctor_fail_fast.1 { initOk := false, winOk := true, renOk := true } rfl,
    c6_ctor_fail_fast.2.1 { initOk := true, winOk := false, renOk := true }
      rfl rfl,
    c6_ctor_fail_fast.2.2 { initOk := true, winOk := true, renOk := true }
      rfl rfl rfl⟩

/-- Claim C9.  If renderer construction fails after the subsystem and the
window have been acquired, C++ stack unwinding releases the already acquired
resources in reverse order before the constructor error propagates: the
trace shows `SDL_DestroyWindow` and then `SDL_Quit` after the failed
`SDL_CreateRenderer`, so a failed construction leaks neither the window nor
the subsystem. -/
theorem c9_reverse_release (env : CtorEnv) (hi : env.initOk = true)
    (hw : env.winOk = true) (hr : env.renOk = false) :
    baseCtor env = (.error "Failed to create renderer.",
      [SdlCall.sdlInitCall, SdlCall.createWindowCall,
        SdlCall.createRendererCall, SdlCall.destroyWindowCall,
        SdlCall.sdlQuitCall]) := by
  rcases env with ⟨i, w, r⟩
  subst hi
  subst hw
  subst hr
  rfl

/-- Claim C9, witness: the theorem instantiated at the concrete environment
in which subsystem and window succeed and renderer creation fails. -/
theorem c9_reverse_release_witness :
    baseCtor { initOk := true, winOk := true, renOk := false } =
      (.error "Failed to create renderer.",
        [SdlCall.sdlInitCall, SdlCall.createWindowCall,
          SdlCall.createRendererCall, SdlCall.destroyWindowCall,
          SdlCall.sdlQuitCall]) :=
  c9_reverse_release { initOk := true, winOk := true, renOk := false }
    rfl rfl rfl

/-- Claim C7.  Every drawing operation performs exactly one underlying
renderer call per invocation (no internal retry): on success it returns
normally with the operation effect applied to the pending frame buffer, and
on a nonzero return code of the underlying call it throws the corresponding
error synchronously to the immediate caller with the state unchanged, so no
failure is swallowed.  `present` forwards to `SDL_RenderPresent`, which
returns `void` in SDL2, so it always succeeds and publishes the pending
frame.  The fill-rect operation is modelled from the spec (it is absent from
src). -/
theorem c7_draw_ops :
    (∀ (s : RenderState) (rc : Int),
      (clear s rc).calls = [RenCall.renderClearCall] ∧
      (rc = 0 → (clear s rc).res = .ok () ∧
        (clear s rc).state = { s with frame := [DrawCmd.clearCmd s.color] }) ∧
      (rc ≠ 0 → (clear s rc).res = .error "Failed to clear renderer." ∧
        (clear s rc).state = s)) ∧
    (∀ s : RenderState,
      (present s).calls = [RenCall.renderPresentCall] ∧
      (present s).res = .ok () ∧
      (present s).state = { s with presented := s.frame }) ∧
    (∀ (s : RenderState) (rect : Rect) (rc : Int),
      (fill_rect s rect rc).calls = [RenCall.renderFillRectCall] ∧
      (rc = 0 → (fill_rect s rect rc).res = .ok () ∧
        (fill_rect s rect rc).state =
          { s with frame := s.frame ++ [DrawCmd.fillRectCmd rect s.color] }) ∧
      (rc ≠ 0 → (fill_rect s rect rc).res =
          .error "RenderOperationError: failed to fill rect." ∧
        (fill_rect s rect rc).state = s)) ∧
    (∀ (s : RenderState) (tex : Nat) (srcrect dstrect : Option Rect)
        (angle : FVal) (flip : Flip) (rc : Int),
      (draw_texture s tex srcrect dstrect angle flip rc).calls =
        [RenCall.renderCopyExCall] ∧
      (rc = 0 → (draw_texture s tex srcrect dstrect angle flip rc).res =
          .ok () ∧
        (draw_texture s tex srcrect dstrect angle flip rc).state =
          { s with frame :=
            s.frame ++ [DrawCmd.copyExCmd tex srcrect dstrect angle flip] }) ∧
      (rc ≠ 0 → (draw_texture s tex srcrect dstrect angle flip rc).res =
          .error "Failed to draw texture." ∧
        (draw_texture s tex srcrect dstrect angle flip rc).state = s)) ∧
    (∀ (s : RenderState) (tex : Nat) (srcrect : Rect) (dstrect : FRect)
        (angle : FVal) (flip : Flip) (rc : Int),
      (draw_texture_frect s tex srcrect dstrect angle flip rc).calls =
        [RenCall.renderCopyExFCall] ∧
      (rc = 0 → (draw_texture_frect s tex srcrect dstrect angle flip rc).res =
          .ok () ∧
        (draw_texture_frect s tex srcrect dstrect angle flip rc).state =
          { s with frame := s.frame ++
            [DrawCmd.copyExFCmd tex (some srcrect) dstrect angle flip] }) ∧
      (rc ≠ 0 →
        (draw_texture_frect s tex srcrect dstrect angle flip rc).res =
          .error "Failed to draw texture." ∧
        (draw_texture_frect s tex srcrect dstrect angle flip rc).state = s)) := by
  refine ⟨?_, ?_, ?_, ?_, ?_⟩
  · intro s rc
    refine ⟨?_, ?_, ?_⟩
    · by_cases h : rc = 0 <;> simp [clear, h]
    · intro h; simp [clear, h]
    · intro h; simp [clear, h]
  · intro s
    exact ⟨rfl, rfl, rfl⟩
  · intro s rect rc
    refine ⟨?_, ?_, ?_⟩
    · by_cases h : rc = 0 <;> simp [fill_rect, h]
    · intro h; simp [fill_rect, h]
    · intro h; simp [fill_rect, h]
  · intro s tex srcrect dstrect angle flip rc
    refine ⟨?_, ?_, ?_⟩
    · by_cases h : rc = 0 <;>
        simp [draw_texture, draw_texture_internal, h]
    · intro h; simp [draw_texture, draw_texture_internal, h]
    · intro h; simp [draw_texture, draw_texture_internal, h]
  · intro s tex srcrect dstrect angle flip rc
    refine ⟨?_, ?_, ?_⟩
    · by_cases h : rc = 0 <;>
        simp [draw_texture_frect, draw_texture_internal, h]
    · intro h; simp [draw_texture_frect, draw_texture_internal, h]
    · intro h; simp [draw_texture_frect, draw_texture_internal, h]

/-- Claim C7, witness: the theorem instantiated at a concrete state, with a
failing and a succeeding return code for `clear`, a failing `fill_rect`, and
a failing `draw_texture`. -/
theorem c7_draw_ops_witness :
    (clear sampleState 1).res = .error "Failed to clear renderer." ∧
    (clear sampleState 0).res = .ok () ∧
    (fill_rect sampleState sampleRect 1).res =
      .error "RenderOperationError: failed to fill rect." ∧
    (draw_texture sampleState 0 none none (FVal.fin 0) Flip.noFlip 1).res =
      .error "Failed to draw texture." :=
  ⟨((c7_draw_ops.1 sampleState 1).2.2 (by decide)).1,
    ((c7_draw_ops.1 sampleState 0).2.1 rfl).1,
    ((c7_draw_ops.2.2.1 sampleState sampleRect 1).2.2 (by decide)).1,
    ((c7_draw_ops.2.2.2.1 sampleState 0 none none (FVal.fin 0)
      Flip.noFlip 1).2.2 (by decide)).1⟩

/-- Claim C8.  `Base::present` forwards to `SDL_RenderPresent` without
checking any result and never throws: for every renderer state the embedded
`present` performs the single forwarding call and returns normally, unlike
`clear`, `set_draw_color` and `draw_texture`, which throw on every nonzero
return of the underlying library call. -/
theorem c8_present_no_throw :
    (∀ s : RenderState, (present s).res = .ok () ∧
      (present s).calls = [RenCall.renderPresentCall]) ∧
    (∀ (s : RenderState) (rc : Int), rc ≠ 0 →
      (clear s rc).res = .error "Failed to clear renderer.") ∧
    (∀ (s : RenderState) (col : Color) (rc : Int), rc ≠ 0 →
      (set_draw_color s col rc).res = .error "Failed to set draw color.") ∧
    (∀ (s : RenderState) (tex : Nat) (srcrect dstrect : Option Rect)
        (dstrectf : Option FRect) (angle : FVal) (flip : Flip) (rc : Int),
      rc ≠ 0 →
      (draw_texture_internal s tex srcrect dstrect dstrectf angle flip rc).res =
        .error "Failed to draw texture.") := by
  refine ⟨fun s => ⟨rfl, rfl⟩, ?_, ?_, ?_⟩
  · intro s rc h
    simp [clear, h]
  · intro s col rc h
    simp [set_draw_color, h]
  · intro s tex srcrect dstrect dstrectf angle flip rc h
    cases dstrectf <;> simp [draw_texture_internal, h]

/-- Claim C8, witness: the theorem instantiated at a concrete state shows
that `present` returns normally while `clear`, `set_draw_color` and
`draw_texture_internal` throw on return code 1. -/
theorem c8_present_no_throw_witness :
    ((present sampleState).res = .ok () ∧
      (present sampleState).calls = [RenCall.renderPresentCall]) ∧
    (clear sampleState 1).res = .error "Failed to clear renderer." ∧
    (set_draw_color sampleState { r := 1, g := 2, b := 3, a := 4 } 1).res =
      .error "Failed to set draw color." ∧
    (draw_texture_internal sampleState 0 none none none (FVal.fin 0)
      Flip.noFlip 1).res = .error "Failed to draw texture." :=
  ⟨c8_present_no_throw.1 sampleState,
    c8_present_no_throw.2.1 sampleState 1 (by decide),
    c8_present_no_throw.2.2.1 sampleState { r := 1, g := 2, b := 3, a := 4 }
      1 (by decide),
    c8_present_no_throw.2.2.2 sampleState 0 none none none (FVal.fin 0)
      Flip.noFlip 1 (by decide)⟩

theorem lex_pair_consistent {α : Type} [LinearOrder α] (pw ph qw qh : α) :
    (pw = qw ∧ ph = qh) ↔
      ¬ (pw < qw ∨ (pw = qw ∧ ph < qh)) ∧
      ¬ (qw < pw ∨ (qw = pw ∧ qh < ph)) := by
  constructor
  · rintro ⟨rfl, rfl⟩
    simp [lt_irrefl]
  · rintro ⟨h1, h2⟩
    rw [not_or] at h1 h2
    have hw : pw = qw := le_antisymm (not_lt.mp h2.1) (not_lt.mp h1.1)
    have hle1 : ph ≤ qh :=
      not_lt.mp (show ¬ qh < ph from fun hlt => h2.2 ⟨hw.symm, hlt⟩)
    have hle2 : qh ≤ ph :=
      not_lt.mp (show ¬ ph < qh from fun hlt => h1.2 ⟨hw, hlt⟩)
    exact ⟨hw, le_antisymm hle1 hle2⟩

theorem dimensions_lex (a b : Dimensions) :
    Dimensions.ltOp a b = true ↔ a.w < b.w ∨ (a.w = b.w ∧ a.h < b.h) := by
  unfold Dimensions.ltOp
  by_cases h : a.w = b.w <;> simp [h, lt_irrefl]

theorem coordinates_lex (a b : Coordinates) :
    Coordinates.ltOp a b = true ↔ a.x < b.x ∨ (a.x = b.x ∧ a.y < b.y) := by
  unfold Coordinates.ltOp
  by_cases h : a.x = b.x <;> simp [h, lt_irrefl]

theorem fdimensions_lex (pw ph qw qh : ℚ) :
    FDimensions.ltOp { w := .fin pw, h := .fin ph }
        { w := .fin qw, h := .fin qh } = true ↔
      pw < qw ∨ (pw = qw ∧ ph < qh) := by
  unfold FDimensions.ltOp feq flt
  by_cases h : pw = qw <;> simp [h, lt_irrefl]

theorem fcoordinates_lex (px py qx qy : ℚ) :
    FCoordinates.ltOp { x := .fin px, y := .fin py }
        { x := .fin qx, y := .fin qy } = true ↔
      px < qx ∨ (px = qx ∧ py < qy) := by
  unfold FCoordinates.ltOp feq flt
  by_cases h : px = qx <;> simp [h, lt_irrefl]

/-- Claim C10, counterexample.  The claim asserts that for all four structs
`a == b` holds if and only if neither `a < b` nor `b < a`.  For the
float-based structs this fails under IEEE comparison semantics: with
`a = FDimensions{NaN, 0.0f}`, `a == a` is false (NaN is not equal to
itself), yet `a < a` is also false in both directions, so the equivalence is
violated at this concrete input. -/
theorem c10_counterexample :
    ¬ (FDimensions.eqOp { w := FVal.nan, h := FVal.fin 0 }
          { w := FVal.nan, h := FVal.fin 0 } = true ↔
       (¬ FDimensions.ltOp { w := FVal.nan, h := FVal.fin 0 }
            { w := FVal.nan, h := FVal.fin 0 } = true ∧
        ¬ FDimensions.ltOp { w := FVal.nan, h := FVal.fin 0 }
            { w := FVal.nan, h := FVal.fin 0 } = true)) := by
  decide

/-- Claim C10, amended.  For the int-based structs `Dimensions` and
`Coordinates`, `operator<` is the lexicographic strict order on the two
fields (hence irreflexive) and is consistent with `operator==`: `a == b`
holds if and only if neither `a < b` nor `b < a`.  For the float-based
structs `FDimensions` and `FCoordinates` the same three properties hold on
non-NaN values (stated over finite float values), but not in general: a NaN
field falsifies the equivalence, as the counterexample shows. -/
theorem c10_amended :
    (∀ a b : Dimensions,
      (Dimensions.eqOp a b = true ↔
        ¬ Dimensions.ltOp a b = true ∧ ¬ Dimensions.ltOp b a = true) ∧
      (Dimensions.ltOp a b = true ↔
        a.w < b.w ∨ (a.w = b.w ∧ a.h < b.h)) ∧
      Dimensions.ltOp a a = false) ∧
    (∀ a b : Coordinates,
      (Coordinates.eqOp a b = true ↔
        ¬ Coordinates.ltOp a b = true ∧ ¬ Coordinates.ltOp b a = true) ∧
      (Coordinates.ltOp a b = true ↔
        a.x < b.x ∨ (a.x = b.x ∧ a.y < b.y)) ∧
      Coordinates.ltOp a a = false) ∧
    (∀ pw ph qw qh : ℚ,
      (FDimensions.eqOp { w := .fin pw, h := .fin ph }
          { w := .fin qw, h := .fin qh } = true ↔
        ¬ FDimensions.ltOp { w := .fin pw, h := .fin ph }
            { w := .fin qw, h := .fin qh } = true ∧
        ¬ FDimensions.ltOp { w := .fin qw, h := .fin qh }
            { w := .fin pw, h := .fin ph } = true) ∧
      FDimensions.ltOp { w := .fin pw, h := .fin ph }
        { w := .fin pw, h := .fin ph } = false) ∧
    (∀ px py qx qy : ℚ,
      (FCoordinates.eqOp { x := .fin px, y := .fin py }
          { x := .fin qx, y := .fin qy } = true ↔
        ¬ FCoordinates.ltOp { x := .fin px, y := .fin py }
            { x := .fin qx, y := .fin qy } = true ∧
        ¬ FCoordinates.ltOp { x := .fin qx, y := .fin qy }
            { x := .fin px, y := .fin py } = true) ∧
      FCoordinates.ltOp { x := .fin px, y := .fin py }
        { x := .fin px, y := .fin py } = false) := by
  refine ⟨?_, ?_, ?_, ?_⟩
  · intro a b
    refine ⟨?_, dimensions_lex a b, ?_⟩
    · rw [dimensions_lex, dimensions_lex]
      simp only [Dimensions.eqOp, Bool.and_eq_true, beq_iff_eq]
      exact lex_pair_consistent a.w a.h b.w b.h
    · simp [Dimensions.ltOp, lt_irrefl]
  · intro a b
    refine ⟨?_, coordinates_lex a b, ?_⟩
    · rw [coordinates_lex, coordinates_lex]
      simp only [Coordinates.eqOp, Bool.and_eq_true, beq_iff_eq]
      exact lex_pair_consistent a.x a.y b.x b.y
    · simp [Coordinates.ltOp, lt_irrefl]
  · intro pw ph qw qh
    refine ⟨?_, ?_⟩
    · rw [fdimensions_lex, fdimensions_lex]
      simp only [FDimensions.eqOp, Bool.and_eq_true, feq, beq_iff_eq]
      exact lex_pair_consistent pw ph qw qh
    · simp [FDimensions.ltOp, feq, flt, lt_irrefl]
  · intro px py qx qy
    refine ⟨?_, ?_⟩
    · rw [fcoordinates_lex, fcoordinates_lex]
      simp only [FCoordinates.eqOp, Bool.and_eq_true, feq, beq_iff_eq]
      exact lex_pair_consistent px py qx qy
    · simp [FCoordinates.ltOp, feq, flt, lt_irrefl]

end SDL2Base
